import Mathlib

/-!
Verification of the condition-model logic of the infrastructure-manager
repository (file `api/v1/gardenercluster_types.go`).

The Go source is shallowly embedded: the string-based types `State`,
`ConditionReason`, `ConditionType` and `metav1.ConditionStatus` become
Lean `String`s with named constants; `metav1.Condition` becomes a
structure; the helpers `meta.RemoveStatusCondition` and
`meta.SetStatusCondition` from k8s.io/apimachinery (called by the source
but living outside the repository) are embedded from their library
implementation, including the branch of `SetStatusCondition` that
preserves `LastTransitionTime` when the status value is unchanged.
Wall-clock time (`metav1.Now()` / `time.Now()`) is threaded through as an
explicit `now : Nat` parameter; the zero `metav1.Time` is modelled as `0`.
-/

namespace InfraMgr

/-- `type State string` with constants `ReadyState`, `ErrorState`. -/
def ReadyState : String := "Ready"

/-- `ErrorState State = "Error"`. -/
def ErrorState : String := "Error"

/-- `ConditionReasonKubeconfigSecretCreated ConditionReason = "KubeconfigSecretCreated"`. -/
def ConditionReasonKubeconfigSecretCreated : String := "KubeconfigSecretCreated"

/-- `ConditionReasonKubeconfigSecretRotated ConditionReason = "KubeconfigSecretRotated"`. -/
def ConditionReasonKubeconfigSecretRotated : String := "KubeconfigSecretRotated"

/-- `ConditionReasonFailedToGetSecret ConditionReason = "FailedToCheckSecret"` (sic, as in the source). -/
def ConditionReasonFailedToGetSecret : String := "FailedToCheckSecret"

/-- `ConditionReasonFailedToCreateSecret ConditionReason = "ConditionReasonFailedToCreateSecret"` (sic, as in the source). -/
def ConditionReasonFailedToCreateSecret : String := "ConditionReasonFailedToCreateSecret"

/-- `ConditionReasonFailedToUpdateSecret ConditionReason = "FailedToUpdateSecret"`. -/
def ConditionReasonFailedToUpdateSecret : String := "FailedToUpdateSecret"

/-- `ConditionReasonFailedToGetKubeconfig ConditionReason = "FailedToGetKubeconfig"`. -/
def ConditionReasonFailedToGetKubeconfig : String := "FailedToGetKubeconfig"

/-- `ConditionTypeKubeconfigManagement ConditionType = "KubeconfigManagement"`. -/
def ConditionTypeKubeconfigManagement : String := "KubeconfigManagement"

/-- `metav1.Condition`: type, status, observedGeneration, lastTransitionTime,
reason, message.  `lastTransitionTime` is a point in time as `Nat`; the zero
`metav1.Time` (for which `IsZero()` holds) is `0`. -/
structure Condition where
  type : String
  status : String
  observedGeneration : Int
  lastTransitionTime : Nat
  reason : String
  message : String
deriving Repr, DecidableEq

/-- `metav1.ObjectMeta` (only the fields relevant to framing). -/
structure ObjectMeta where
  name : String
  nspace : String
  resourceVersion : String
deriving Repr, DecidableEq

/-- `Secret` — location and structure of the secret containing the kubeconfig. -/
structure Secret where
  name : String
  nspace : String
  key : String
deriving Repr, DecidableEq

/-- `Kubeconfig` — desired kubeconfig location. -/
structure Kubeconfig where
  secret : Secret
deriving Repr, DecidableEq

/-- `Shoot` — name of the Shoot resource. -/
structure Shoot where
  name : String
deriving Repr, DecidableEq

/-- `GardenerClusterSpec` — desired state of GardenerCluster. -/
structure GardenerClusterSpec where
  kubeconfig : Kubeconfig
  shoot : Shoot
deriving Repr, DecidableEq

/-- `GardenerClusterStatus` — observed state: the aggregate `State` and the
condition list. -/
structure GardenerClusterStatus where
  state : String
  conditions : List Condition
deriving Repr, DecidableEq

/-- `GardenerCluster` — object metadata, spec and status. -/
structure GardenerCluster where
  metadata : ObjectMeta
  spec : GardenerClusterSpec
  status : GardenerClusterStatus
deriving Repr, DecidableEq

/-- `meta.FindStatusCondition` (k8s.io/apimachinery): first condition of the
given type, if any. -/
def FindStatusCondition (conditions : List Condition) (conditionType : String) :
    Option Condition :=
  conditions.find? (fun c => c.type == conditionType)

/-- `meta.RemoveStatusCondition` (k8s.io/apimachinery): keeps exactly the
conditions whose type differs from `conditionType`. -/
def RemoveStatusCondition (conditions : List Condition) (conditionType : String) :
    List Condition :=
  conditions.filter (fun c => c.type != conditionType)

/-- The in-place field updates `meta.SetStatusCondition` applies to an already
present condition of the same type: status (and, only on a status flip, the
transition time — taken from the new condition unless its time is zero, in
which case `time.Now()` is used), reason, message and observed generation. -/
def updateExistingCondition (existing newCondition : Condition) (now : Nat) :
    Condition :=
  let afterStatus :=
    if existing.status ≠ newCondition.status then
      { existing with
        status := newCondition.status,
        lastTransitionTime :=
          if newCondition.lastTransitionTime ≠ 0 then
            newCondition.lastTransitionTime
          else now }
    else existing
  { afterStatus with
    reason := newCondition.reason,
    message := newCondition.message,
    observedGeneration := newCondition.observedGeneration }

/-- `meta.SetStatusCondition` (k8s.io/apimachinery): if a condition of the new
condition's type exists, update that (first) entry in place via
`updateExistingCondition`; otherwise append the new condition, stamping
`time.Now()` as its transition time if the provided one is zero. -/
def SetStatusCondition : List Condition → Condition → Nat → List Condition
  | [], newCondition, now =>
    [if newCondition.lastTransitionTime = 0 then
       { newCondition with lastTransitionTime := now }
     else newCondition]
  | c :: rest, newCondition, now =>
    if c.type = newCondition.type then
      updateExistingCondition c newCondition now :: rest
    else
      c :: SetStatusCondition rest newCondition now

/-- `getMessage`: the closed reason-to-message lookup table of the source,
with default `"Unknown condition"`.  The Go `switch` on distinct string
constants is embedded as a chain of equality tests. -/
def getMessage (reason : String) : String :=
  if reason = ConditionReasonKubeconfigSecretCreated then
    "Secret created successfully."
  else if reason = ConditionReasonKubeconfigSecretRotated then
    "Secret rotated successfully."
  else if reason = ConditionReasonFailedToCreateSecret then
    "Failed to create secret."
  else if reason = ConditionReasonFailedToUpdateSecret then
    "Failed to rotate secret."
  else if reason = ConditionReasonFailedToGetSecret then
    "Failed to get secret."
  else if reason = ConditionReasonFailedToGetKubeconfig then
    "Failed to get kubeconfig."
  else
    "Unknown condition"

/-- `fmt.Sprintf("%s Error: %s", getMessage(reason), error.Error())`. -/
def errorStateMessage (reason errText : String) : String :=
  getMessage reason ++ " Error: " ++ errText

/-- `(cluster *GardenerCluster) UpdateConditionForReadyState`: sets
`Status.State = ReadyState`, builds the condition (transition time
`metav1.Now()`, message `getMessage(reason)`), removes any existing condition
of that type and sets the new one. -/
def UpdateConditionForReadyState (cluster : GardenerCluster)
    (conditionType reason conditionStatus : String) (now : Nat) :
    GardenerCluster :=
  let condition : Condition :=
    { type := conditionType
      status := conditionStatus
      observedGeneration := 0
      lastTransitionTime := now
      reason := reason
      message := getMessage reason }
  { cluster with
    status :=
      { state := ReadyState
        conditions :=
          SetStatusCondition
            (RemoveStatusCondition cluster.status.conditions condition.type)
            condition now } }

/-- `(cluster *GardenerCluster) UpdateConditionForErrorState` for a non-nil
`error` whose `Error()` text is `errText`: sets `Status.State = ErrorState`,
builds the condition with message
`fmt.Sprintf("%s Error: %s", getMessage(reason), error.Error())`, removes any
existing condition of that type and sets the new one. -/
def UpdateConditionForErrorState (cluster : GardenerCluster)
    (conditionType reason conditionStatus : String) (errText : String)
    (now : Nat) : GardenerCluster :=
  let condition : Condition :=
    { type := conditionType
      status := conditionStatus
      observedGeneration := 0
      lastTransitionTime := now
      reason := reason
      message := errorStateMessage reason errText }
  { cluster with
    status :=
      { state := ErrorState
        conditions :=
          SetStatusCondition
            (RemoveStatusCondition cluster.status.conditions condition.type)
            condition now } }

/-- `UpdateConditionForErrorState` at the Go interface level, where the
`error` argument may be nil (`none`): the body calls `error.Error()`
unconditionally with no nil branch, so a nil argument panics — modelled as
`none`; a non-nil error (`some errText`) runs `UpdateConditionForErrorState`. -/
def UpdateConditionForErrorStateChecked (cluster : GardenerCluster)
    (conditionType reason conditionStatus : String) (err : Option String)
    (now : Nat) : Option GardenerCluster :=
  match err with
  | none => none
  | some errText =>
    some (UpdateConditionForErrorState cluster conditionType reason
      conditionStatus errText now)

/-- One call to one of the two condition-model operations, with its
arguments and its wall-clock instant. -/
inductive UpdateCall where
  | ready (conditionType reason conditionStatus : String) (now : Nat)
  | errorCall (conditionType reason conditionStatus errText : String) (now : Nat)
deriving Repr, DecidableEq

/-- The condition type an `UpdateCall` writes. -/
def UpdateCall.callType : UpdateCall → String
  | .ready t _ _ _ => t
  | .errorCall t _ _ _ _ => t

/-- The reason an `UpdateCall` writes. -/
def UpdateCall.callReason : UpdateCall → String
  | .ready _ r _ _ => r
  | .errorCall _ r _ _ _ => r

/-- The aggregate state an `UpdateCall` sets. -/
def UpdateCall.callState : UpdateCall → String
  | .ready _ _ _ _ => ReadyState
  | .errorCall _ _ _ _ _ => ErrorState

/-- The condition an `UpdateCall` builds. -/
def UpdateCall.callCondition : UpdateCall → Condition
  | .ready t r s now =>
    { type := t, status := s, observedGeneration := 0,
      lastTransitionTime := now, reason := r, message := getMessage r }
  | .errorCall t r s e now =>
    { type := t, status := s, observedGeneration := 0,
      lastTransitionTime := now, reason := r,
      message := errorStateMessage r e }

/-- Apply one call to a cluster. -/
def applyCall (cluster : GardenerCluster) : UpdateCall → GardenerCluster
  | .ready t r s now => UpdateConditionForReadyState cluster t r s now
  | .errorCall t r s e now =>
    UpdateConditionForErrorState cluster t r s e now

/-- Apply a finite sequence of calls, first call first. -/
def applyCalls (cluster : GardenerCluster) (calls : List UpdateCall) :
    GardenerCluster :=
  calls.foldl applyCall cluster

/-- At most one condition entry per type: the types in the list are
pairwise distinct. -/
def DistinctTypes (conditions : List Condition) : Prop :=
  conditions.Pairwise (fun a b => a.type ≠ b.type)

/-- A reason reporting success of the kubeconfig-secret management. -/
def IsReadyReason (reason : String) : Prop :=
  reason = ConditionReasonKubeconfigSecretCreated ∨
    reason = ConditionReasonKubeconfigSecretRotated

/-- A call the reconciliation engine can actually make when reporting
readiness: ready-state reports go to the management condition type with one
of the two success reasons; error-state reports are unrestricted. -/
def EngineCall : UpdateCall → Prop
  | .ready t r _ _ =>
    t = ConditionTypeKubeconfigManagement ∧ IsReadyReason r
  | .errorCall _ _ _ _ _ => True

/-- `State=Ready` implies a condition for the management type is present and
every management-type entry reports a success reason. -/
def ReadyImpliesHealthy (status : GardenerClusterStatus) : Prop :=
  status.state = ReadyState →
    (∃ c ∈ status.conditions, c.type = ConditionTypeKubeconfigManagement) ∧
      ∀ c ∈ status.conditions,
        c.type = ConditionTypeKubeconfigManagement → IsReadyReason c.reason

/-- The string values of the six `ConditionReason` constants defined in the
source, in the order of the `getMessage` switch cases. -/
def definedReasonValues : List String :=
  [ConditionReasonKubeconfigSecretCreated,
   ConditionReasonKubeconfigSecretRotated,
   ConditionReasonFailedToCreateSecret,
   ConditionReasonFailedToUpdateSecret,
   ConditionReasonFailedToGetSecret,
   ConditionReasonFailedToGetKubeconfig]

/-- A cluster with empty metadata, spec and status, for concrete runs. -/
def emptyCluster : GardenerCluster :=
  { metadata := { name := "", nspace := "", resourceVersion := "" }
    spec :=
      { kubeconfig := { secret := { name := "", nspace := "", key := "" } }
        shoot := { name := "" } }
    status := { state := "", conditions := [] } }

/-- A cluster whose initial condition list holds two entries of the same
type, used to probe claims quantified over every initial status. -/
def duplicatedCluster : GardenerCluster :=
  { emptyCluster with
    status :=
      { state := ""
        conditions :=
          [{ type := "A", status := "True", observedGeneration := 0,
             lastTransitionTime := 1, reason := "r1", message := "m1" },
           { type := "A", status := "False", observedGeneration := 0,
             lastTransitionTime := 2, reason := "r2", message := "m2" }] } }

/-! ### Helper lemmas about the embedded apimachinery helpers -/

theorem mem_removeStatusCondition {l : List Condition} {t : String} {c : Condition}
    (h : c ∈ RemoveStatusCondition l t) : c ∈ l ∧ c.type ≠ t := by
  have h' := List.mem_filter.mp h
  refine ⟨h'.1, ?_⟩
  simpa using h'.2

theorem removeStatusCondition_forall_ne (l : List Condition) (t : String) :
    ∀ c ∈ RemoveStatusCondition l t, c.type ≠ t :=
  fun _ hc => (mem_removeStatusCondition hc).2

/-- When no condition of the new condition's type is present and the new
condition already carries `now` as its transition time, `SetStatusCondition`
appends it unchanged. -/
theorem setStatusCondition_of_forall_ne {l : List Condition} {newC : Condition}
    {now : Nat} (hltt : newC.lastTransitionTime = now)
    (h : ∀ c ∈ l, c.type ≠ newC.type) :
    SetStatusCondition l newC now = l ++ [newC] := by
  induction l with
  | nil =>
    simp only [SetStatusCondition, List.nil_append]
    by_cases hz : newC.lastTransitionTime = 0
    · rw [if_pos hz, ← hltt]
    · rw [if_neg hz]
  | cons c rest ih =>
    have hc : ¬ c.type = newC.type := h c (List.mem_cons_self c rest)
    simp only [SetStatusCondition, if_neg hc, List.cons_append]
    rw [ih (fun x hx => h x (List.mem_cons_of_mem c hx))]

/-- Normal form of `UpdateConditionForReadyState`: the old entries of other
types, in order, followed by the freshly built condition. -/
theorem updateReady_conditions (cluster : GardenerCluster)
    (t r s : String) (now : Nat) :
    (UpdateConditionForReadyState cluster t r s now).status.conditions =
      RemoveStatusCondition cluster.status.conditions t ++
        [{ type := t, status := s, observedGeneration := 0,
           lastTransitionTime := now, reason := r, message := getMessage r }] :=
  setStatusCondition_of_forall_ne rfl
    (removeStatusCondition_forall_ne cluster.status.conditions t)

/-- Normal form of `UpdateConditionForErrorState`. -/
theorem updateError_conditions (cluster : GardenerCluster)
    (t r s e : String) (now : Nat) :
    (UpdateConditionForErrorState cluster t r s e now).status.conditions =
      RemoveStatusCondition cluster.status.conditions t ++
        [{ type := t, status := s, observedGeneration := 0,
           lastTransitionTime := now, reason := r,
           message := errorStateMessage r e }] :=
  setStatusCondition_of_forall_ne rfl
    (removeStatusCondition_forall_ne cluster.status.conditions t)

theorem callCondition_type (call : UpdateCall) :
    call.callCondition.type = call.callType := by
  cases call <;> rfl

theorem callCondition_reason (call : UpdateCall) :
    call.callCondition.reason = call.callReason := by
  cases call <;> rfl

theorem applyCall_state (cluster : GardenerCluster) (call : UpdateCall) :
    (applyCall cluster call).status.state = call.callState := by
  cases call <;> rfl

theorem applyCall_conditions (cluster : GardenerCluster) (call : UpdateCall) :
    (applyCall cluster call).status.conditions =
      RemoveStatusCondition cluster.status.conditions call.callType ++
        [call.callCondition] := by
  cases call with
  | ready t r s now => exact updateReady_conditions cluster t r s now
  | errorCall t r s e now => exact updateError_conditions cluster t r s e now

theorem applyCalls_cons (cluster : GardenerCluster) (call : UpdateCall)
    (calls : List UpdateCall) :
    applyCalls cluster (call :: calls) = applyCalls (applyCall cluster call) calls :=
  rfl

/-- `find?` over the normal form returns the freshly inserted condition. -/
theorem findStatusCondition_remove_append (l : List Condition) (c : Condition) :
    FindStatusCondition (RemoveStatusCondition l c.type ++ [c]) c.type = some c := by
  unfold FindStatusCondition
  rw [List.find?_append]
  have h1 : (RemoveStatusCondition l c.type).find? (fun x => x.type == c.type)
      = none := by
    rw [List.find?_eq_none]
    intro x hx
    simpa using (mem_removeStatusCondition hx).2
  rw [h1]
  simp

theorem countP_remove_append_self (l : List Condition) (c : Condition) :
    ((RemoveStatusCondition l c.type ++ [c]).countP (fun x => x.type == c.type))
      = 1 := by
  rw [List.countP_append]
  have h0 : (RemoveStatusCondition l c.type).countP (fun x => x.type == c.type)
      = 0 :=
    List.countP_eq_zero.mpr
      (fun a ha => by simpa using (mem_removeStatusCondition ha).2)
  rw [h0]
  simp

theorem countP_remove_append_other (l : List Condition) (c : Condition)
    (t : String) (h : ¬ c.type = t) :
    ((RemoveStatusCondition l c.type ++ [c]).countP (fun x => x.type == t)) =
      l.countP (fun x => x.type == t) := by
  rw [List.countP_append]
  have h1 : ([c].countP (fun x => x.type == t)) = 0 := by
    simp [h]
  rw [h1, Nat.add_zero]
  unfold RemoveStatusCondition
  rw [List.countP_filter]
  apply List.countP_congr
  intro a _
  by_cases ha : a.type = t
  · subst ha
    simp only [beq_self_eq_true, Bool.true_and, bne_iff_ne, ne_eq,
      decide_eq_true_eq]
    rw [iff_true]
    intro hh
    exact h hh.symm
  · simp [ha]

/-- Effect of one call on the number of entries of a given type: one for the
called type, unchanged for every other type. -/
theorem countP_applyCall (cluster : GardenerCluster) (call : UpdateCall)
    (t : String) :
    ((applyCall cluster call).status.conditions.countP (fun x => x.type == t)) =
      if call.callType = t then 1
      else cluster.status.conditions.countP (fun x => x.type == t) := by
  rw [applyCall_conditions, ← callCondition_type]
  by_cases h : call.callCondition.type = t
  · rw [if_pos h, ← h]
    exact countP_remove_append_self cluster.status.conditions call.callCondition
  · rw [if_neg h]
    exact countP_remove_append_other cluster.status.conditions
      call.callCondition t h

theorem countP_applyCalls_of_one (calls : List UpdateCall)
    (cluster : GardenerCluster) (t : String)
    (h : cluster.status.conditions.countP (fun x => x.type == t) = 1) :
    ((applyCalls cluster calls).status.conditions.countP (fun x => x.type == t))
      = 1 := by
  induction calls generalizing cluster with
  | nil => exact h
  | cons call calls ih =>
    rw [applyCalls_cons]
    apply ih
    rw [countP_applyCall]
    by_cases hc : call.callType = t
    · rw [if_pos hc]
    · rw [if_neg hc]
      exact h

/-- Once a call with a given type has happened, there is exactly one entry of
that type, whatever the initial status was. -/
theorem countP_applyCalls_mem (calls : List UpdateCall)
    (cluster : GardenerCluster) (call : UpdateCall) (hmem : call ∈ calls) :
    ((applyCalls cluster calls).status.conditions.countP
      (fun x => x.type == call.callType)) = 1 := by
  induction calls generalizing cluster with
  | nil => cases hmem
  | cons c cs ih =>
    rw [applyCalls_cons]
    rcases List.mem_cons.mp hmem with h | h
    · subst h
      apply countP_applyCalls_of_one
      rw [countP_applyCall, if_pos rfl]
    · exact ih (applyCall cluster c) h

theorem distinctTypes_remove_append (l : List Condition) (c : Condition)
    (h : DistinctTypes l) :
    DistinctTypes (RemoveStatusCondition l c.type ++ [c]) := by
  unfold DistinctTypes
  rw [List.pairwise_append]
  refine ⟨List.Pairwise.sublist (List.filter_sublist l) h,
    List.pairwise_singleton _ _, ?_⟩
  intro a ha b hb
  rw [List.mem_singleton] at hb
  subst hb
  exact (mem_removeStatusCondition ha).2

theorem distinctTypes_applyCall (cluster : GardenerCluster) (call : UpdateCall)
    (h : DistinctTypes cluster.status.conditions) :
    DistinctTypes (applyCall cluster call).status.conditions := by
  rw [applyCall_conditions, ← callCondition_type]
  exact distinctTypes_remove_append cluster.status.conditions
    call.callCondition h

theorem distinctTypes_applyCalls (calls : List UpdateCall)
    (cluster : GardenerCluster) (h : DistinctTypes cluster.status.conditions) :
    DistinctTypes (applyCalls cluster calls).status.conditions := by
  induction calls generalizing cluster with
  | nil => exact h
  | cons call calls ih =>
    rw [applyCalls_cons]
    exact ih (applyCall cluster call) (distinctTypes_applyCall cluster call h)

/-- One engine call preserves the ready-implies-healthy invariant. -/
theorem readyImpliesHealthy_applyCall (cluster : GardenerCluster)
    (call : UpdateCall) (hc : EngineCall call) :
    ReadyImpliesHealthy (applyCall cluster call).status := by
  cases call with
  | ready t r s now =>
    obtain ⟨ht, hr⟩ := hc
    subst ht
    intro _
    rw [applyCall_conditions]
    constructor
    · exact ⟨_, List.mem_append_right _ (List.mem_singleton_self _), rfl⟩
    · intro c hcmem hctype
      rcases List.mem_append.mp hcmem with h1 | h1
      · exact absurd hctype (mem_removeStatusCondition h1).2
      · rw [List.mem_singleton] at h1
        subst h1
        exact hr
  | errorCall t r s e now =>
    intro hstate
    rw [applyCall_state] at hstate
    simp only [UpdateCall.callState] at hstate
    exact absurd hstate (by decide)

/-! ### Claims -/

/-- C1: the stored reason strings do not all come from the claimed closed set
of names: the failed-to-get-secret constant has string value
"FailedToCheckSecret", not "FailedToGetSecret", and the failed-to-create-secret
constant has string value "ConditionReasonFailedToCreateSecret", not
"FailedToCreateSecret"; consequently a condition written with the
failed-to-get-secret reason stores the string "FailedToCheckSecret". -/
theorem conditionReason_constants_diverge :
    ConditionReasonFailedToGetSecret = "FailedToCheckSecret" ∧
      ConditionReasonFailedToCreateSecret = "ConditionReasonFailedToCreateSecret" ∧
      ConditionReasonFailedToGetSecret ≠ "FailedToGetSecret" ∧
      ConditionReasonFailedToCreateSecret ≠ "FailedToCreateSecret" ∧
      ((UpdateConditionForReadyState emptyCluster
          ConditionTypeKubeconfigManagement ConditionReasonFailedToGetSecret
          "False" 3).status.conditions.map (fun c => c.reason)) =
        ["FailedToCheckSecret"] :=
  ⟨rfl, rfl, by decide, by decide, by rfl⟩

/-- C2 counterexample: the claim quantifies over every initial status, but
from an initial status holding two conditions of the same type "A", a call of
type "B" leaves both "A" entries, so the resulting list has two entries of one
type rather than at most one per type. -/
theorem conditionUniqueness_counterexample :
    ((applyCalls duplicatedCluster
        [UpdateCall.ready "B" "KubeconfigSecretCreated" "True" 3]).status.conditions.countP
      (fun x => x.type == "A")) = 2 ∧
      ¬ DistinctTypes (applyCalls duplicatedCluster
        [UpdateCall.ready "B" "KubeconfigSecretCreated" "True" 3]).status.conditions := by
  constructor
  · rfl
  · simp only [DistinctTypes]
    decide

/-- C2 (amended): for every initial status and every finite sequence of
`UpdateConditionForReadyState`/`UpdateConditionForErrorState` calls with
arbitrary arguments, (a) if the initial `status.conditions` has at most one
entry per condition type, the resulting list does too, and (b) regardless of
the initial status, once at least one call with a given condition type has
occurred there is exactly one entry of that type: each call removes any
existing entry of its type before inserting the new entry, never appending a
duplicate. -/
theorem conditionUniqueness_amended (init : GardenerCluster)
    (calls : List UpdateCall) :
    (DistinctTypes init.status.conditions →
      DistinctTypes (applyCalls init calls).status.conditions) ∧
      ∀ call ∈ calls,
        ((applyCalls init calls).status.conditions.countP
          (fun x => x.type == call.callType)) = 1 :=
  ⟨fun h => distinctTypes_applyCalls calls init h,
   fun call hc => countP_applyCalls_mem calls init call hc⟩

/-- Witness for the amended C2 at a concrete input, discharging the
distinct-initial-types hypothesis of its first conjunct. -/
theorem conditionUniqueness_amended_witness :
    DistinctTypes emptyCluster.status.conditions ∧
      (DistinctTypes (applyCalls emptyCluster
          [UpdateCall.ready "KubeconfigManagement" "KubeconfigSecretCreated"
            "True" 5]).status.conditions ∧
        ∀ call ∈ [UpdateCall.ready "KubeconfigManagement"
            "KubeconfigSecretCreated" "True" 5],
          ((applyCalls emptyCluster
              [UpdateCall.ready "KubeconfigManagement" "KubeconfigSecretCreated"
                "True" 5]).status.conditions.countP
            (fun x => x.type == call.callType)) = 1) :=
  ⟨by simp only [DistinctTypes]; decide,
   (conditionUniqueness_amended emptyCluster
       [UpdateCall.ready "KubeconfigManagement" "KubeconfigSecretCreated"
         "True" 5]).1 (by simp only [DistinctTypes]; decide),
   (conditionUniqueness_amended emptyCluster
       [UpdateCall.ready "KubeconfigManagement" "KubeconfigSecretCreated"
         "True" 5]).2⟩

/-- C3: for every non-nil error argument, `UpdateConditionForErrorState` sets
the state to Error and writes a condition of the given type whose reason is
the given reason and whose message is the lookup-table sentence for that
reason with the error text appended — so the error text is a suffix, hence a
substring, of the message. -/
theorem errorState_message_embeds_cause (cluster : GardenerCluster)
    (conditionType reason conditionStatus errText : String) (now : Nat) :
    ∃ result,
      UpdateConditionForErrorStateChecked cluster conditionType reason
          conditionStatus (some errText) now = some result ∧
        result.status.state = ErrorState ∧
        ∃ c, FindStatusCondition result.status.conditions conditionType
            = some c ∧
          c.reason = reason ∧
          c.message = getMessage reason ++ " Error: " ++ errText ∧
          ∃ s, c.message = s ++ errText := by
  refine ⟨_, rfl, rfl, ?_⟩
  simp only [updateError_conditions]
  exact ⟨{ type := conditionType, status := conditionStatus,
           observedGeneration := 0, lastTransitionTime := now,
           reason := reason, message := errorStateMessage reason errText },
    findStatusCondition_remove_append cluster.status.conditions
      { type := conditionType, status := conditionStatus,
        observedGeneration := 0, lastTransitionTime := now,
        reason := reason, message := errorStateMessage reason errText },
    rfl, rfl, ⟨getMessage reason ++ " Error: ", rfl⟩⟩

/-- C4 counterexample: nothing stops a caller from passing an error reason to
`UpdateConditionForReadyState`; doing so yields `state = Ready` while the
management condition reports the error reason "FailedToGetKubeconfig". -/
theorem readyState_invariant_counterexample :
    (applyCalls emptyCluster
        [UpdateCall.ready "KubeconfigManagement" "FailedToGetKubeconfig"
          "True" 3]).status.state = ReadyState ∧
      ¬ ReadyImpliesHealthy (applyCalls emptyCluster
        [UpdateCall.ready "KubeconfigManagement" "FailedToGetKubeconfig"
          "True" 3]).status := by
  constructor
  · rfl
  · simp only [ReadyImpliesHealthy, ConditionTypeKubeconfigManagement,
      IsReadyReason, ConditionReasonKubeconfigSecretCreated,
      ConditionReasonKubeconfigSecretRotated, ReadyState]
    decide

/-- C4 (amended): the invariant holds for call sequences the reconciliation
engine actually makes — ready-state reports use the management condition type
and one of the two success reasons, error-state reports are unrestricted: from
any initial status satisfying the invariant, `state = Ready` implies the
management condition is present and every management-type entry reports
KubeconfigSecretCreated or KubeconfigSecretRotated. -/
theorem readyState_invariant_amended (init : GardenerCluster)
    (calls : List UpdateCall) (h0 : ReadyImpliesHealthy init.status)
    (hcalls : ∀ call ∈ calls, EngineCall call) :
    ReadyImpliesHealthy (applyCalls init calls).status := by
  induction calls generalizing init with
  | nil => exact h0
  | cons c cs ih =>
    rw [applyCalls_cons]
    exact ih (applyCall init c)
      (readyImpliesHealthy_applyCall init c (hcalls c (List.mem_cons_self c cs)))
      (fun x hx => hcalls x (List.mem_cons_of_mem c hx))

/-- Witness for the amended C4 at a concrete input. -/
theorem readyState_invariant_amended_witness :
    ReadyImpliesHealthy emptyCluster.status ∧
      (∀ call ∈ [UpdateCall.ready "KubeconfigManagement"
          "KubeconfigSecretCreated" "True" 7], EngineCall call) ∧
      ReadyImpliesHealthy (applyCalls emptyCluster
        [UpdateCall.ready "KubeconfigManagement" "KubeconfigSecretCreated"
          "True" 7]).status := by
  have h0 : ReadyImpliesHealthy emptyCluster.status := by
    intro h
    exact absurd h (by decide)
  have hc : ∀ call ∈ [UpdateCall.ready "KubeconfigManagement"
      "KubeconfigSecretCreated" "True" 7], EngineCall call := by
    intro call hcall
    rw [List.mem_singleton] at hcall
    subst hcall
    exact ⟨rfl, Or.inl rfl⟩
  exact ⟨h0, hc, readyState_invariant_amended emptyCluster _ h0 hc⟩

/-- C5: both operations stamp the written condition's transition time with the
time of the call, unconditionally — for every prior status, including one
already holding a condition of the same type and status value, the condition
of the written type in the result carries `now`. -/
theorem lastTransitionTime_stamped_unconditionally (cluster : GardenerCluster)
    (conditionType reason conditionStatus errText : String) (now : Nat) :
    (∃ c, FindStatusCondition
        (UpdateConditionForReadyState cluster conditionType reason
          conditionStatus now).status.conditions conditionType = some c ∧
      c.lastTransitionTime = now) ∧
    ∃ c, FindStatusCondition
        (UpdateConditionForErrorState cluster conditionType reason
          conditionStatus errText now).status.conditions conditionType
        = some c ∧
      c.lastTransitionTime = now := by
  constructor
  · simp only [updateReady_conditions]
    exact ⟨{ type := conditionType, status := conditionStatus,
             observedGeneration := 0, lastTransitionTime := now,
             reason := reason, message := getMessage reason },
      findStatusCondition_remove_append cluster.status.conditions
        { type := conditionType, status := conditionStatus,
          observedGeneration := 0, lastTransitionTime := now,
          reason := reason, message := getMessage reason }, rfl⟩
  · simp only [updateError_conditions]
    exact ⟨{ type := conditionType, status := conditionStatus,
             observedGeneration := 0, lastTransitionTime := now,
             reason := reason, message := errorStateMessage reason errText },
      findStatusCondition_remove_append cluster.status.conditions
        { type := conditionType, status := conditionStatus,
          observedGeneration := 0, lastTransitionTime := now,
          reason := reason, message := errorStateMessage reason errText }, rfl⟩

/-- C6: `UpdateConditionForReadyState` always sets the aggregate state to
Ready, `UpdateConditionForErrorState` always sets it to Error, and after any
call to either operation the state is one of Ready, Error. -/
theorem aggregate_state_after_updates (cluster : GardenerCluster)
    (conditionType reason conditionStatus errText : String) (now : Nat) :
    (UpdateConditionForReadyState cluster conditionType reason conditionStatus
        now).status.state = ReadyState ∧
      (UpdateConditionForErrorState cluster conditionType reason
        conditionStatus errText now).status.state = ErrorState ∧
      ∀ (cluster2 : GardenerCluster) (call : UpdateCall),
        (applyCall cluster2 call).status.state = ReadyState ∨
          (applyCall cluster2 call).status.state = ErrorState := by
  refine ⟨rfl, rfl, ?_⟩
  intro cluster2 call
  cases call with
  | ready _ _ _ _ => exact Or.inl rfl
  | errorCall _ _ _ _ _ => exact Or.inr rfl

/-- C7: `getMessage` realises the closed reason-to-message table on the six
defined reason constants, and `UpdateConditionForReadyState` stores exactly
`getMessage reason` as the written condition's message. -/
theorem getMessage_table_and_ready_message :
    getMessage ConditionReasonKubeconfigSecretCreated
        = "Secret created successfully." ∧
      getMessage ConditionReasonKubeconfigSecretRotated
        = "Secret rotated successfully." ∧
      getMessage ConditionReasonFailedToCreateSecret
        = "Failed to create secret." ∧
      getMessage ConditionReasonFailedToUpdateSecret
        = "Failed to rotate secret." ∧
      getMessage ConditionReasonFailedToGetSecret
        = "Failed to get secret." ∧
      getMessage ConditionReasonFailedToGetKubeconfig
        = "Failed to get kubeconfig." ∧
      ∀ (cluster : GardenerCluster)
        (conditionType reason conditionStatus : String) (now : Nat),
        ∃ c, FindStatusCondition
            (UpdateConditionForReadyState cluster conditionType reason
              conditionStatus now).status.conditions conditionType = some c ∧
          c.message = getMessage reason := by
  refine ⟨by decide, by decide, by decide, by decide, by decide, by decide, ?_⟩
  intro cluster conditionType reason conditionStatus now
  simp only [updateReady_conditions]
  exact ⟨{ type := conditionType, status := conditionStatus,
           observedGeneration := 0, lastTransitionTime := now,
           reason := reason, message := getMessage reason },
    findStatusCondition_remove_append cluster.status.conditions
      { type := conditionType, status := conditionStatus,
        observedGeneration := 0, lastTransitionTime := now,
        reason := reason, message := getMessage reason }, rfl⟩

/-- C8: both operations change only the status — the spec (shoot name and
secret coordinates) and the object metadata are left unchanged. -/
theorem updates_preserve_spec_and_metadata (cluster : GardenerCluster)
    (conditionType reason conditionStatus errText : String) (now : Nat) :
    ((UpdateConditionForReadyState cluster conditionType reason conditionStatus
        now).spec = cluster.spec ∧
      (UpdateConditionForReadyState cluster conditionType reason conditionStatus
        now).metadata = cluster.metadata) ∧
      (UpdateConditionForErrorState cluster conditionType reason conditionStatus
          errText now).spec = cluster.spec ∧
        (UpdateConditionForErrorState cluster conditionType reason
          conditionStatus errText now).metadata = cluster.metadata :=
  ⟨⟨rfl, rfl⟩, rfl, rfl⟩

/-- C9: at the Go interface, `UpdateConditionForErrorState` dereferences its
error argument unconditionally: with a non-nil error it always succeeds and
returns the updated cluster, and with a nil error the message construction
fails (no nil-handling branch exists). -/
theorem errorState_requires_nonnil_error :
    (∀ (cluster : GardenerCluster)
        (conditionType reason conditionStatus errText : String) (now : Nat),
      UpdateConditionForErrorStateChecked cluster conditionType reason
          conditionStatus (some errText) now =
        some (UpdateConditionForErrorState cluster conditionType reason
          conditionStatus errText now)) ∧
      ∀ (cluster : GardenerCluster)
        (conditionType reason conditionStatus : String) (now : Nat),
        UpdateConditionForErrorStateChecked cluster conditionType reason
          conditionStatus none now = none :=
  ⟨fun _ _ _ _ _ _ => rfl, fun _ _ _ _ _ => rfl⟩

/-- C10: `getMessage` is total over arbitrary reason strings: every reason
outside the six defined constants maps to the default text
"Unknown condition". -/
theorem getMessage_total_default (reason : String)
    (h : reason ∉ definedReasonValues) :
    getMessage reason = "Unknown condition" := by
  simp only [definedReasonValues, List.mem_cons, List.mem_singleton,
    List.not_mem_nil, or_false, not_or] at h
  obtain ⟨h1, h2, h3, h4, h5, h6⟩ := h
  unfold getMessage
  rw [if_neg h1, if_neg h2, if_neg h3, if_neg h4, if_neg h5, if_neg h6]

/-- Witness for C10 at a concrete input. -/
theorem getMessage_total_default_witness :
    "SomeOtherReason" ∉ definedReasonValues ∧
      getMessage "SomeOtherReason" = "Unknown condition" :=
  ⟨by decide, getMessage_total_default "SomeOtherReason" (by decide)⟩

end InfraMgr
